import Mathlib

/-!
Verification development for the moonstone coordinator: a shallow
embedding, in Lean, of the dual-transport arbitration engine
(`app/wifi_manager.py`, `app/bluetooth_manager.py`,
`app/websocket_manager.py`, `app/database.py`, `app/models.py`),
together with proofs of the behavioural properties stated in the
design document.

Modelling conventions:
* Python `datetime` timestamps are modelled as `Nat`.
* Python `float` fields are modelled as `Rat`; none of the verified
  code performs arithmetic on them, it only copies them around.
* Python dictionaries keyed by device id whose only read access is
  `d.get(key, default)` are modelled as total functions with the
  default baked in; dictionaries that support membership tests and
  deletion are modelled as `String → Option _`; the Bluetooth
  manager's `connected_devices` dict, which the code iterates over in
  insertion order, is modelled as an association list.
* Each `async` method that mutates `self` becomes a pure state
  transformer; I/O outcomes (HTTP responses, GATT errors, JSON decode
  results) become explicit parameters of the transformer, one
  constructor per `except` branch of the source.
-/

namespace Moonstone

/-! ## Data model (`app/models.py`)

`SensorReading` carries every field of the pydantic model.  The wire
payload (`WirePayload`) is a parsed JSON body as both transports
receive it: all `SensorReading` fields except `received_at`, which the
managers attach on receipt (`received_at=datetime.utcnow()`).
-/

structure WirePayload where
  device : String
  version : String := "unknown"
  ts : Option Int := some 0
  pm2_5 : Option Int := none
  pm2_5_norm : Option Rat := none
  pm_ok : Option Bool := none
  gas_raw : Option Int := none
  gas_norm : Option Rat := none
  gas_ok : Option Bool := none
  temp : Option Rat := none
  humidity : Option Rat := none
  dht_ok : Option Bool := none
  wifi_connected : Bool := false
  hostname : String := ""
  deriving Repr, DecidableEq

structure SensorReading where
  device : String
  version : String := "unknown"
  ts : Option Int := some 0
  pm2_5 : Option Int := none
  pm2_5_norm : Option Rat := none
  pm_ok : Option Bool := none
  gas_raw : Option Int := none
  gas_norm : Option Rat := none
  gas_ok : Option Bool := none
  temp : Option Rat := none
  humidity : Option Rat := none
  dht_ok : Option Bool := none
  wifi_connected : Bool := false
  hostname : String := ""
  received_at : Option Nat := none
  deriving Repr, DecidableEq

/-- `SensorReading(**parsed, received_at=datetime.utcnow())`: build a
reading from a parsed wire payload, attaching the receipt timestamp. -/
def mkReading (p : WirePayload) (now : Nat) : SensorReading :=
  { device := p.device, version := p.version, ts := p.ts
    pm2_5 := p.pm2_5, pm2_5_norm := p.pm2_5_norm, pm_ok := p.pm_ok
    gas_raw := p.gas_raw, gas_norm := p.gas_norm, gas_ok := p.gas_ok
    temp := p.temp, humidity := p.humidity, dht_ok := p.dht_ok
    wifi_connected := p.wifi_connected, hostname := p.hostname
    received_at := some now }

/-- `SensorConfig` (`app/models.py`). -/
structure SensorConfig where
  device : String
  wifi_ssid : String := ""
  wifi_password : String := ""
  hostname : String := ""
  wifi_enabled : Bool := false
  background_color : String := ""
  updated_at : Option Nat := none
  deriving Repr, DecidableEq

/-! ## Long-range poller (`app/wifi_manager.py`)

State owned by `WiFiManager`: `_wifi_active` maps a device id to the
time of its last successful poll (`device_id in self._wifi_active` is
the activity test, `del` removes the entry), and `_failure_counts`
counts consecutive failures (read only through `.get(device_id, 0)`,
hence modelled as a total function defaulting to 0).
-/

/-- `MAX_FAILURES = 3` in `app/wifi_manager.py`. -/
def MAX_FAILURES : Nat := 3

structure WifiState where
  wifi_active : String → Option Nat
  failure_counts : String → Nat

/-- `WiFiManager.is_wifi_active`: `device_id in self._wifi_active`. -/
def is_wifi_active (st : WifiState) (device_id : String) : Bool :=
  (st.wifi_active device_id).isSome

/-- `WiFiManager._mark_wifi_success`: record the poll time and zero the
failure counter (the `was_active` test in the source only gates a log
line). -/
def mark_wifi_success (st : WifiState) (device_id : String) (now : Nat) : WifiState :=
  { wifi_active := fun d => if d = device_id then some now else st.wifi_active d
    failure_counts := fun d => if d = device_id then 0 else st.failure_counts d }

/-- `WiFiManager._mark_wifi_failure`: increment the counter; once it
reaches `MAX_FAILURES`, drop the device from `_wifi_active` (the
source guards the `del` with a membership test, which a pointwise
erase subsumes). -/
def mark_wifi_failure (st : WifiState) (device_id : String) : WifiState :=
  let c := st.failure_counts device_id + 1
  let counts := fun d => if d = device_id then c else st.failure_counts d
  if MAX_FAILURES ≤ c then
    { wifi_active := fun d => if d = device_id then none else st.wifi_active d
      failure_counts := counts }
  else
    { st with failure_counts := counts }

/-- Iterate `_mark_wifi_failure` for one device `n` times. -/
def mark_failures (st : WifiState) (device_id : String) : Nat → WifiState
  | 0 => st
  | n + 1 => mark_wifi_failure (mark_failures st device_id n) device_id

/-- Outcome of the HTTP GET inside `_poll_sensor`, one constructor per
branch of the source: `ok` is HTTP 200 with a body parseable into a
`SensorReading`; the rest are the non-200 branch and the three
`except` clauses. -/
inductive PollOutcome where
  | ok (data : WirePayload)
  | httpError (status : Nat)
  | connectError
  | timeout
  | otherError
  deriving Repr, DecidableEq

/-- `WiFiManager._poll_sensor`: on HTTP 200 pick the device id from the
body (`data.get("device", config.device)`; a parseable body always has
`device`), mark success and forward the reading; on any failure mark a
failure against `config.device` and forward nothing.  Returns the new
state and the list of readings passed to `on_reading`. -/
def poll_sensor (st : WifiState) (config : SensorConfig) (outcome : PollOutcome)
    (now : Nat) : WifiState × List SensorReading :=
  match outcome with
  | .ok data =>
      let st' := mark_wifi_success st data.device now
      (st', [mkReading data now])
  | .httpError _ => (mark_wifi_failure st config.device, [])
  | .connectError => (mark_wifi_failure st config.device, [])
  | .timeout => (mark_wifi_failure st config.device, [])
  | .otherError => (mark_wifi_failure st config.device, [])

/-- `WiFiManager.poll_sensor_now`: a one-shot poll on a fresh HTTP
client.  The body never touches `self._wifi_active` or
`self._failure_counts`, so the state transformer returns the state it
was given; it yields the reading on HTTP 200 and `None` on everything
else (non-200 falls through, every exception is swallowed). -/
def poll_sensor_now (st : WifiState) (outcome : PollOutcome) (now : Nat) :
    WifiState × Option SensorReading :=
  match outcome with
  | .ok data => (st, some (mkReading data now))
  | _ => (st, none)

/-- One observable poll event for a device, for stating inter-success
monotonicity of the failure counter. -/
inductive WifiOp where
  | success (device_id : String) (now : Nat)
  | failure (device_id : String)
  deriving Repr, DecidableEq

def apply_wifi_op (st : WifiState) : WifiOp → WifiState
  | .success d t => mark_wifi_success st d t
  | .failure d => mark_wifi_failure st d

def apply_wifi_ops (st : WifiState) (ops : List WifiOp) : WifiState :=
  ops.foldl apply_wifi_op st

/-! ## Short-range session manager (`app/bluetooth_manager.py`)

`connected_devices` is a dict from transport address to a per-session
record `{device_id, name, client, connected, last_reading}`; the code
iterates it in insertion order when resolving a device id, so it is
modelled as an association list keyed by address.  A session's
`client` is `none` when the record carries no client object and
`some b` with `b` the value of `client.is_connected`. -/

structure DeviceInfo where
  device_id : String
  name : String
  client : Option Bool
  connected : Bool
  last_reading : Option SensorReading
  deriving Repr, DecidableEq

structure BTState where
  connected_devices : List (String × DeviceInfo)
  is_wifi_active_cb : Option (String → Bool)

/-- Dict lookup `self.connected_devices[address]` / membership test. -/
def lookup_device (devs : List (String × DeviceInfo)) (address : String) :
    Option DeviceInfo :=
  (devs.find? (fun p => p.1 = address)).map (·.2)

/-- `self.connected_devices[address]["last_reading"] = reading`,
guarded by `if address in self.connected_devices` (absent key: no-op). -/
def update_last_reading (devs : List (String × DeviceInfo)) (address : String)
    (r : SensorReading) : List (String × DeviceInfo) :=
  devs.map (fun p => if p.1 = address then (p.1, { p.2 with last_reading := some r }) else p)

/-- `BluetoothManager._handle_notification`.  `decoded` is the result
of `json.loads(data.decode("utf-8"))` followed by pydantic validation:
`none` covers the `json.JSONDecodeError` branch and the generic
`except` (both log and drop the message, touching nothing).  On a
well-formed payload: build the reading with `received_at` attached,
update `last_reading` when the address has a session, then suppress
when the WiFi check is set and reports the device active, otherwise
call `on_reading` once.  Returns the new state and the readings passed
to `on_reading`. -/
def handle_notification (st : BTState) (address : String)
    (decoded : Option WirePayload) (now : Nat) : BTState × List SensorReading :=
  match decoded with
  | none => (st, [])
  | some payload =>
      let reading := mkReading payload now
      let st' := { st with
        connected_devices := update_last_reading st.connected_devices address reading }
      match st.is_wifi_active_cb with
      | some isActive => if isActive reading.device then (st', []) else (st', [reading])
      | none => (st', [reading])

/-- The log lines emitted by `write_config` / `read_config`, one
constructor per `logger` call in the source. -/
inductive ConfigLog where
  | notConnected (device_id : String)
  | clientNotConnected (device_id : String)
  | writingConfig (device_id : String)
  | writeOk (device_id : String)
  | writeFailed (device_id : String)
  | readOk (device_id : String)
  | readFailed (device_id : String)
  deriving Repr, DecidableEq

/-- `for addr, info in self.connected_devices.items(): if
info.get("device_id") == device_id: address = addr; break` -/
def find_address (devs : List (String × DeviceInfo)) (device_id : String) :
    Option (String × DeviceInfo) :=
  devs.find? (fun p => p.2.device_id = device_id)

/-- `BluetoothManager.write_config`.  `gattWriteOk` is the outcome of
`client.write_gatt_char` (`false` = the call raised; the handler
returns `False`).  The method returns `False` with a "not found or not
connected" log when no session resolves, `False` when the session's
client is missing or disconnected, and never raises. -/
def write_config (st : BTState) (device_id : String) (gattWriteOk : Bool) :
    Bool × List ConfigLog :=
  match find_address st.connected_devices device_id with
  | none => (false, [.notConnected device_id])
  | some (_, info) =>
      match info.client with
      | none => (false, [.clientNotConnected device_id])
      | some isConnected =>
          if isConnected then
            if gattWriteOk then (true, [.writingConfig device_id, .writeOk device_id])
            else (false, [.writingConfig device_id, .writeFailed device_id])
          else (false, [.clientNotConnected device_id])

/-- `BluetoothManager.read_config`.  `gattRead` is the outcome of
`client.read_gatt_char` decoded as UTF-8 (`none` = the call raised).
Mirrors `write_config`: `None` plus the same failure logs, never
raises. -/
def read_config (st : BTState) (device_id : String) (gattRead : Option String) :
    Option String × List ConfigLog :=
  match find_address st.connected_devices device_id with
  | none => (none, [.notConnected device_id])
  | some (_, info) =>
      match info.client with
      | none => (none, [.clientNotConnected device_id])
      | some isConnected =>
          if isConnected then
            match gattRead with
            | some s => (some s, [.readOk device_id])
            | none => (none, [.readFailed device_id])
          else (none, [.clientNotConnected device_id])

/-- Python `str.split(sep)` for a one-character separator: the maximal
runs between separator occurrences, empty runs included
(`"".split(sep) == [""]`, `"((".split("(") == ["", "", ""]`). -/
def pySplit (sep : Char) : List Char → List (List Char)
  | [] => [[]]
  | c :: rest =>
      let r := pySplit sep rest
      if c = sep then [] :: r
      else (c :: r.headD []) :: r.tail

/-- Device-id extraction in `BluetoothManager._connect_sensor`:
`name = device.name or address`, then if the name contains `"("` and
`")"`, `device_id = name.split("(")[-1].rstrip(")")`, else the
address.  `[-1]` is the last segment (`split` never returns an empty
list), and `rstrip(")")` drops every trailing `')'`. -/
def extract_device_id (deviceName : Option String) (address : String) : String :=
  let name := match deviceName with
    | none => address
    | some n => if n = "" then address else n
  if name.data.contains '(' ∧ name.data.contains ')' then
    let segments := pySplit '(' name.data
    String.mk ((segments.getLastD []).reverse.dropWhile (fun c => c = ')')).reverse
  else address

/-- Spec-side reading of the extraction rule, written from the design
document's words for comparison with `extract_device_id`: "the
substring after the last `(` with trailing `)` characters stripped". -/
def spec_token_after_last_open (s : String) : String :=
  String.mk ((s.data.reverse.takeWhile (fun c => c ≠ '(')).dropWhile
    (fun c => c = ')')).reverse

/-! ## Fan-out broadcaster (`app/websocket_manager.py`)

Subscribers are opaque channel handles, modelled as `Nat`.  Whether a
given `connection.send_text` call raises is an I/O outcome, modelled
as a predicate `fails` on subscribers fixed for the duration of one
`_send_to_all` pass. -/

abbrev Subscriber := Nat

/-- The `for connection in self.active_connections` loop of
`_send_to_all`: returns the successful deliveries (subscriber paired
with the message it was sent) and the `disconnected` set collected
from failing sends. -/
def send_loop (fails : Subscriber → Bool) (message : String) :
    List Subscriber → List (Subscriber × String) × List Subscriber
  | [] => ([], [])
  | c :: rest =>
      let r := send_loop fails message rest
      if fails c then (r.1, c :: r.2) else ((c, message) :: r.1, r.2)

/-- `WebSocketManager._send_to_all`: nothing happens on an empty
subscriber set; otherwise one delivery pass, then
`self.active_connections -= disconnected`.  Returns the surviving
subscriber set and the deliveries. -/
def send_to_all (conns : List Subscriber) (fails : Subscriber → Bool)
    (message : String) : List Subscriber × List (Subscriber × String) :=
  if conns.isEmpty then (conns, [])
  else
    let r := send_loop fails message conns
    (conns.filter (fun c => ¬ c ∈ r.2), r.1)

/-- `json.dumps({"type": "reading", "data": reading.model_dump(mode="json")})`,
serialized once per `broadcast` call.  JSON string escaping is not
modelled (no verified property depends on the bytes themselves, only
on every subscriber receiving the same ones). -/
def serializeField (name : String) (value : String) : String :=
  "\x22" ++ name ++ "\x22: " ++ value

def serializeOpt {α : Type} (f : α → String) : Option α → String
  | none => "null"
  | some a => f a

def serializeReading (r : SensorReading) : String :=
  "\x7b" ++ serializeField "type" "\x22reading\x22" ++ ", " ++
  serializeField "data" ("\x7b" ++
    String.intercalate ", " [
      serializeField "device" ("\x22" ++ r.device ++ "\x22"),
      serializeField "version" ("\x22" ++ r.version ++ "\x22"),
      serializeField "ts" (serializeOpt toString r.ts),
      serializeField "pm2_5" (serializeOpt toString r.pm2_5),
      serializeField "pm2_5_norm" (serializeOpt toString r.pm2_5_norm),
      serializeField "pm_ok" (serializeOpt (fun b => toString b) r.pm_ok),
      serializeField "gas_raw" (serializeOpt toString r.gas_raw),
      serializeField "gas_norm" (serializeOpt toString r.gas_norm),
      serializeField "gas_ok" (serializeOpt (fun b => toString b) r.gas_ok),
      serializeField "temp" (serializeOpt toString r.temp),
      serializeField "humidity" (serializeOpt toString r.humidity),
      serializeField "dht_ok" (serializeOpt (fun b => toString b) r.dht_ok),
      serializeField "wifi_connected" (toString r.wifi_connected),
      serializeField "hostname" ("\x22" ++ r.hostname ++ "\x22"),
      serializeField "received_at" (serializeOpt toString r.received_at)]
    ++ "\x7d") ++ "\x7d"

/-- `WebSocketManager.broadcast`: serialize the event once, then one
delivery pass over the current subscriber set. -/
def broadcast (conns : List Subscriber) (fails : Subscriber → Bool)
    (reading : SensorReading) : List Subscriber × List (Subscriber × String) :=
  send_to_all conns fails (serializeReading reading)

/-! ## Persistence gateway (`app/database.py`)

`store_reading` builds one row for the `readings` table.  `StoredRow`
has exactly the columns of the `INSERT` statement; `received_at` is
stored as a timestamp (the source stores its ISO rendering), and the
three `*_ok` flags are stored via
`1 if flag else (0 if flag is False else None)`. -/

structure StoredRow where
  device : String
  timestamp : Option Int
  received_at : Nat
  pm2_5 : Option Int
  pm2_5_norm : Option Rat
  gas_raw : Option Int
  gas_norm : Option Rat
  temp : Option Rat
  humidity : Option Rat
  pm_ok : Option Nat
  gas_ok : Option Nat
  dht_ok : Option Nat
  deriving Repr, DecidableEq

/-- `1 if flag else (0 if flag is False else None)`. -/
def encode_ok : Option Bool → Option Nat
  | some true => some 1
  | some false => some 0
  | none => none

/-- `Database.store_reading`: the row bound to the `INSERT INTO
readings` statement, with `datetime.utcnow()` substituted when the
reading carries no `received_at`. -/
def store_reading (r : SensorReading) (now : Nat) : StoredRow :=
  { device := r.device
    timestamp := r.ts
    received_at := match r.received_at with | some t => t | none => now
    pm2_5 := r.pm2_5
    pm2_5_norm := r.pm2_5_norm
    gas_raw := r.gas_raw
    gas_norm := r.gas_norm
    temp := r.temp
    humidity := r.humidity
    pm_ok := encode_ok r.pm_ok
    gas_ok := encode_ok r.gas_ok
    dht_ok := encode_ok r.dht_ok }

/-! ## Helper lemmas -/

theorem mark_wifi_failure_counts (st : WifiState) (d x : String) :
    (mark_wifi_failure st d).failure_counts x
      = if x = d then st.failure_counts d + 1 else st.failure_counts x := by
  simp only [mark_wifi_failure]
  split <;> rfl

theorem mark_wifi_failure_active_other (st : WifiState) (d x : String) :
    (mark_wifi_failure st d).wifi_active x = none ∨
    (mark_wifi_failure st d).wifi_active x = st.wifi_active x := by
  simp only [mark_wifi_failure]
  split
  · by_cases h : x = d
    · exact Or.inl (by simp [h])
    · exact Or.inr (by simp [h])
  · exact Or.inr rfl

theorem failure_counts_le_apply_op (st : WifiState) (D : String) (op : WifiOp)
    (h : ∀ t, op ≠ WifiOp.success D t) :
    st.failure_counts D ≤ (apply_wifi_op st op).failure_counts D := by
  cases op with
  | success d t =>
      have hd : d ≠ D := by
        intro hdD
        exact (h t) (by rw [hdD])
      have hDd : ¬ (D = d) := fun h2 => hd h2.symm
      simp [apply_wifi_op, mark_wifi_success, hDd]
  | failure d =>
      rw [apply_wifi_op, mark_wifi_failure_counts]
      by_cases hxd : D = d
      · subst hxd; simp
      · simp [hxd]

theorem failure_counts_le_apply_ops (st : WifiState) (D : String) (ops : List WifiOp)
    (h : ∀ op ∈ ops, ∀ t, op ≠ WifiOp.success D t) :
    st.failure_counts D ≤ (apply_wifi_ops st ops).failure_counts D := by
  induction ops generalizing st with
  | nil => exact Nat.le_refl _
  | cons op rest ih =>
      have hstep := failure_counts_le_apply_op st D op (h op (List.mem_cons_self op rest))
      have htail := ih (apply_wifi_op st op)
        (fun o ho t => h o (List.mem_cons_of_mem op ho) t)
      exact Nat.le_trans hstep htail

/-! ## Claim theorems: long-range poller -/

/-- C2: for a device that is long-range-active with a zero failure
counter, two consecutive failure markings leave `is_wifi_active` true
and a third flips it false (`MAX_FAILURES = 3`). -/
theorem failure_threshold_flips_inactive (st : WifiState) (D : String)
    (hactive : is_wifi_active st D = true)
    (hzero : st.failure_counts D = 0) :
    is_wifi_active (mark_failures st D 2) D = true ∧
    is_wifi_active (mark_failures st D 3) D = false := by
  have h1c : (mark_failures st D 1).failure_counts D = 1 := by
    simp [mark_failures, mark_wifi_failure_counts, hzero]
  have h1a : (mark_failures st D 1).wifi_active D = st.wifi_active D := by
    simp [mark_failures, mark_wifi_failure, hzero, MAX_FAILURES]
  have h2c : (mark_failures st D 2).failure_counts D = 2 := by
    show (mark_wifi_failure (mark_failures st D 1) D).failure_counts D = 2
    simp [mark_wifi_failure_counts, h1c]
  have h2a : (mark_failures st D 2).wifi_active D = st.wifi_active D := by
    show (mark_wifi_failure (mark_failures st D 1) D).wifi_active D = _
    simp [mark_wifi_failure, h1c, MAX_FAILURES, h1a]
  constructor
  · show ((mark_failures st D 2).wifi_active D).isSome = true
    rw [h2a]
    exact hactive
  · show ((mark_wifi_failure (mark_failures st D 2) D).wifi_active D).isSome = false
    simp [mark_wifi_failure, h2c, MAX_FAILURES]

theorem failure_threshold_flips_inactive_witness :
    is_wifi_active
      { wifi_active := fun d => if d = "D1" then some 0 else none,
        failure_counts := fun _ => 0 } "D1" = true ∧
    is_wifi_active (mark_failures
      { wifi_active := fun d => if d = "D1" then some 0 else none,
        failure_counts := fun _ => 0 } "D1" 2) "D1" = true ∧
    is_wifi_active (mark_failures
      { wifi_active := fun d => if d = "D1" then some 0 else none,
        failure_counts := fun _ => 0 } "D1" 3) "D1" = false := by
  refine ⟨by simp [is_wifi_active], ?_⟩
  exact failure_threshold_flips_inactive _ "D1" (by simp [is_wifi_active]) rfl

/-- C3: one successful poll resets the device's failure counter to 0
and makes it long-range-active, whatever the prior count; and along
any sequence of poll events containing no success for the device, its
failure counter never decreases. -/
theorem success_resets_and_failures_monotone (st : WifiState) (cfg : SensorConfig)
    (data : WirePayload) (now : Nat) (ops : List WifiOp)
    (hops : ∀ op ∈ ops, ∀ t, op ≠ WifiOp.success data.device t) :
    (poll_sensor st cfg (PollOutcome.ok data) now).1.failure_counts data.device = 0 ∧
    is_wifi_active (poll_sensor st cfg (PollOutcome.ok data) now).1 data.device = true ∧
    st.failure_counts data.device ≤ (apply_wifi_ops st ops).failure_counts data.device := by
  refine ⟨?_, ?_, failure_counts_le_apply_ops st data.device ops hops⟩
  · simp [poll_sensor, mark_wifi_success]
  · simp [poll_sensor, mark_wifi_success, is_wifi_active]

theorem success_resets_and_failures_monotone_witness :
    (poll_sensor
        { wifi_active := fun _ => none, failure_counts := fun _ => 7 }
        { device := "D1" } (PollOutcome.ok { device := "D1" }) 5).1.failure_counts "D1" = 0 ∧
    is_wifi_active (poll_sensor
        { wifi_active := fun _ => none, failure_counts := fun _ => 7 }
        { device := "D1" } (PollOutcome.ok { device := "D1" }) 5).1 "D1" = true ∧
    ({ wifi_active := fun _ => none, failure_counts := fun _ => 7 } :
        WifiState).failure_counts "D1"
      ≤ (apply_wifi_ops
          { wifi_active := fun _ => none, failure_counts := fun _ => 7 }
          [WifiOp.failure "D1", WifiOp.success "D2" 9]).failure_counts "D1" :=
  success_resets_and_failures_monotone _ _ _ 5 [WifiOp.failure "D1", WifiOp.success "D2" 9]
    (by intro op hop t; revert hop; simp; rintro (rfl | rfl) <;> simp)

/-- C7: a successful long-range poll (HTTP 200, parseable body)
forwards exactly one reading to the reading sink, for every prior
reachability state; `poll_sensor` takes no short-range session state
at all, so the long-range path cannot consult or be suppressed by it. -/
theorem long_range_success_always_forwards (st : WifiState) (cfg : SensorConfig)
    (data : WirePayload) (now : Nat) :
    (poll_sensor st cfg (PollOutcome.ok data) now).2 = [mkReading data now] := by
  rfl

/-- C8: the one-shot manual poll returns the reading on success and
`none` otherwise, and leaves the reachability state untouched on every
outcome. -/
theorem poll_sensor_now_preserves_state (st : WifiState) (outcome : PollOutcome)
    (now : Nat) :
    (poll_sensor_now st outcome now).1 = st := by
  cases outcome <;> rfl

/-! ## Claim theorems: short-range session manager -/

theorem lookup_update_last_reading (devs : List (String × DeviceInfo))
    (address : String) (r : SensorReading) :
    lookup_device (update_last_reading devs address r) address
      = (lookup_device devs address).map (fun i => { i with last_reading := some r }) := by
  induction devs with
  | nil => rfl
  | cons p rest ih =>
      by_cases h : p.1 = address
      · simp [update_last_reading, lookup_device, List.find?_cons_of_pos, h]
      · have hb : decide (p.1 = address) = false := by simpa using h
        simp only [update_last_reading, List.map_cons, if_neg h, lookup_device,
          List.find?_cons, hb]
        simpa only [lookup_device, update_last_reading] using ih

/-- Concrete fixtures used by the witness theorems. -/
def sampleInfo : DeviceInfo :=
  { device_id := "D1", name := "Centerville Sensor (D1)", client := some true,
    connected := true, last_reading := none }

def sampleBT : BTState :=
  { connected_devices := [("AA:BB", sampleInfo)],
    is_wifi_active_cb := some (fun d => d = "D1") }

def sampleBTNoCb : BTState :=
  { connected_devices := [("AA:BB", sampleInfo)], is_wifi_active_cb := none }

/-- C1: handling a well-formed notification on a connected session
always updates that session's `last_reading` to the decoded reading
(with the receipt timestamp attached); the reading is forwarded to
`on_reading` exactly once when the WiFi check is unset or reports the
device inactive, and not at all when it reports the device active. -/
theorem notification_updates_and_arbitrates (st : BTState) (address : String)
    (info : DeviceInfo) (payload : WirePayload) (now : Nat)
    (hconn : lookup_device st.connected_devices address = some info) :
    lookup_device (handle_notification st address (some payload) now).1.connected_devices
        address = some { info with last_reading := some (mkReading payload now) } ∧
    (mkReading payload now).received_at = some now ∧
    (∀ f, st.is_wifi_active_cb = some f → f payload.device = true →
      (handle_notification st address (some payload) now).2 = []) ∧
    (∀ f, st.is_wifi_active_cb = some f → f payload.device = false →
      (handle_notification st address (some payload) now).2 = [mkReading payload now]) ∧
    (st.is_wifi_active_cb = none →
      (handle_notification st address (some payload) now).2 = [mkReading payload now]) := by
  have hdevs : (handle_notification st address (some payload) now).1.connected_devices
      = update_last_reading st.connected_devices address (mkReading payload now) := by
    simp only [handle_notification]
    cases h : st.is_wifi_active_cb with
    | none => rfl
    | some f => by_cases hf : f (mkReading payload now).device = true <;> simp [hf]
  refine ⟨?_, rfl, ?_, ?_, ?_⟩
  · rw [hdevs, lookup_update_last_reading, hconn]
    rfl
  · intro f hf hactive
    simp only [handle_notification, hf]
    have : f (mkReading payload now).device = true := hactive
    simp [this]
  · intro f hf hinactive
    simp only [handle_notification, hf]
    have : f (mkReading payload now).device = false := hinactive
    simp [this]
  · intro hf
    simp [handle_notification, hf]

theorem notification_updates_and_arbitrates_witness :
    lookup_device (handle_notification sampleBT "AA:BB"
        (some { device := "D1" }) 42).1.connected_devices "AA:BB"
      = some { sampleInfo with last_reading := some (mkReading { device := "D1" } 42) } ∧
    (mkReading ({ device := "D1" } : WirePayload) 42).received_at = some 42 ∧
    (handle_notification sampleBT "AA:BB" (some { device := "D1" }) 42).2 = [] := by
  have h := notification_updates_and_arbitrates sampleBT "AA:BB" sampleInfo
    { device := "D1" } 42 (by rfl)
  exact ⟨h.1, h.2.1, h.2.2.1 (fun d => d = "D1") rfl (by simp)⟩

/-- C5: a notification whose payload fails to decode is dropped
whole: nothing is forwarded and the session state (including the open
session record) is unchanged; a subsequent well-formed notification on
the same session, with the WiFi check not reporting the device
active, is still forwarded. -/
theorem malformed_notification_dropped (st : BTState) (address : String)
    (payload : WirePayload) (now now2 : Nat)
    (hnosuppress : ∀ f, st.is_wifi_active_cb = some f → f payload.device = false) :
    handle_notification st address none now = (st, []) ∧
    (handle_notification (handle_notification st address none now).1 address
        (some payload) now2).2 = [mkReading payload now2] := by
  refine ⟨rfl, ?_⟩
  show (handle_notification st address (some payload) now2).2 = _
  simp only [handle_notification]
  cases h : st.is_wifi_active_cb with
  | none => rfl
  | some f => simp [mkReading, hnosuppress f h]

theorem malformed_notification_dropped_witness :
    handle_notification sampleBTNoCb "AA:BB" none 1 = (sampleBTNoCb, []) ∧
    (handle_notification (handle_notification sampleBTNoCb "AA:BB" none 1).1 "AA:BB"
        (some { device := "D1" }) 2).2 = [mkReading { device := "D1" } 2] :=
  malformed_notification_dropped sampleBTNoCb "AA:BB" { device := "D1" } 1 2
    (by intro f hf; simp [sampleBTNoCb] at hf)

/-- C6: with no session resolving a device id, `write_config` returns
`False` and `read_config` returns `None`, each logging "not found or
not connected"; and whenever the underlying GATT request errors, both
return their failure value instead of raising (the transformers are
total, mirroring the source's catch-all handlers). -/
theorem config_ops_fail_closed (st : BTState) (X : String)
    (hnone : find_address st.connected_devices X = none) :
    (∀ ok, write_config st X ok = (false, [ConfigLog.notConnected X])) ∧
    (∀ g, read_config st X g = (none, [ConfigLog.notConnected X])) ∧
    (∀ st2 : BTState, (write_config st2 X false).1 = false) ∧
    (∀ st2 : BTState, (read_config st2 X none).1 = none) := by
  refine ⟨?_, ?_, ?_, ?_⟩
  · intro ok
    simp [write_config, hnone]
  · intro g
    simp [read_config, hnone]
  · intro st2
    simp only [write_config]
    cases find_address st2.connected_devices X with
    | none => rfl
    | some p =>
        obtain ⟨a, did, nm, client, conn, lr⟩ := p
        cases client with
        | none => rfl
        | some b => cases b <;> rfl
  · intro st2
    simp only [read_config]
    cases find_address st2.connected_devices X with
    | none => rfl
    | some p =>
        obtain ⟨a, did, nm, client, conn, lr⟩ := p
        cases client with
        | none => rfl
        | some b => cases b <;> rfl

def emptyBT : BTState := { connected_devices := [], is_wifi_active_cb := none }

theorem config_ops_fail_closed_witness :
    write_config emptyBT "X" true = (false, [ConfigLog.notConnected "X"]) ∧
    read_config emptyBT "X" (some "cfg") = (none, [ConfigLog.notConnected "X"]) ∧
    (write_config sampleBT "X" false).1 = false := by
  have h := config_ops_fail_closed emptyBT "X" rfl
  exact ⟨h.1 true, h.2.1 (some "cfg"), h.2.2.1 sampleBT⟩

/-! ## Claim theorems: fan-out broadcaster -/

theorem send_loop_deliveries_mem (fails : Subscriber → Bool) (message : String)
    (l : List Subscriber) (c : Subscriber) (m : String) :
    (c, m) ∈ (send_loop fails message l).1 ↔ c ∈ l ∧ fails c = false ∧ m = message := by
  induction l with
  | nil => simp [send_loop]
  | cons a rest ih =>
      by_cases ha : fails a = true
      · simp only [send_loop, ha, if_true, List.mem_cons]
        rw [ih]
        constructor
        · rintro ⟨hc, hf, hm⟩
          exact ⟨Or.inr hc, hf, hm⟩
        · rintro ⟨hca, hf, hm⟩
          rcases hca with rfl | hc
          · rw [ha] at hf
            exact Bool.noConfusion hf
          · exact ⟨hc, hf, hm⟩
      · have hfa : fails a = false := by
          cases hx : fails a
          · rfl
          · exact absurd hx ha
        simp only [send_loop, hfa, Bool.false_eq_true, if_false, List.mem_cons,
          Prod.mk.injEq]
        rw [ih]
        constructor
        · rintro (⟨rfl, rfl⟩ | ⟨hc, hf, hm⟩)
          · exact ⟨Or.inl rfl, hfa, rfl⟩
          · exact ⟨Or.inr hc, hf, hm⟩
        · rintro ⟨hca, hf, hm⟩
          rcases hca with rfl | hc
          · exact Or.inl ⟨rfl, hm⟩
          · exact Or.inr ⟨hc, hf, hm⟩

theorem send_loop_disconnected_mem (fails : Subscriber → Bool) (message : String)
    (l : List Subscriber) (c : Subscriber) :
    c ∈ (send_loop fails message l).2 ↔ c ∈ l ∧ fails c = true := by
  induction l with
  | nil => simp [send_loop]
  | cons a rest ih =>
      by_cases ha : fails a = true
      · simp only [send_loop, ha, if_true, List.mem_cons]
        rw [ih]
        constructor
        · rintro (rfl | ⟨hc, hf⟩)
          · exact ⟨Or.inl rfl, ha⟩
          · exact ⟨Or.inr hc, hf⟩
        · rintro ⟨hca, hf⟩
          rcases hca with rfl | hc
          · exact Or.inl rfl
          · exact Or.inr ⟨hc, hf⟩
      · have hfa : fails a = false := by
          cases hx : fails a
          · rfl
          · exact absurd hx ha
        simp only [send_loop, hfa, Bool.false_eq_true, if_false, List.mem_cons]
        rw [ih]
        constructor
        · rintro ⟨hc, hf⟩
          exact ⟨Or.inr hc, hf⟩
        · rintro ⟨hca, hf⟩
          rcases hca with rfl | hc
          · rw [hf] at hfa
            exact Bool.noConfusion hfa
          · exact ⟨hc, hf⟩

/-- C4: one `broadcast` call serializes the event once and attempts
delivery of that same serialized message to every subscriber present
at call time; every subscriber whose delivery fails is evicted from
the set after the pass (and so is absent on the next publish), every
subscriber whose delivery succeeds receives exactly the serialized
message and survives, and one subscriber's failure never prevents
delivery to the others. -/
theorem broadcast_fanout (conns : List Subscriber) (fails : Subscriber → Bool)
    (reading : SensorReading) (c : Subscriber) (hc : c ∈ conns) :
    (∀ d m, (d, m) ∈ (broadcast conns fails reading).2 → m = serializeReading reading) ∧
    (fails c = false → (c, serializeReading reading) ∈ (broadcast conns fails reading).2
      ∧ c ∈ (broadcast conns fails reading).1) ∧
    (fails c = true → ¬ c ∈ (broadcast conns fails reading).1) := by
  have hne : conns.isEmpty = false := by
    cases conns with
    | nil => cases hc
    | cons a l => rfl
  simp only [broadcast, send_to_all, hne, Bool.false_eq_true, if_false]
  refine ⟨?_, ?_, ?_⟩
  · intro d m hm
    exact ((send_loop_deliveries_mem fails _ conns d m).mp hm).2.2
  · intro hok
    refine ⟨(send_loop_deliveries_mem fails _ conns c _).mpr ⟨hc, hok, rfl⟩, ?_⟩
    rw [List.mem_filter]
    refine ⟨hc, ?_⟩
    simp only [decide_eq_true_eq]
    intro habs
    have := ((send_loop_disconnected_mem fails _ conns c).mp habs).2
    rw [this] at hok
    cases hok
  · intro hfail habs
    rw [List.mem_filter] at habs
    have h2 := habs.2
    simp only [decide_eq_true_eq] at h2
    exact h2 ((send_loop_disconnected_mem fails _ conns c).mpr ⟨hc, hfail⟩)

theorem broadcast_fanout_witness :
    (∀ d m, (d, m) ∈ (broadcast [1, 2, 3] (fun c => c = 2)
        { device := "D1" }).2 → m = serializeReading { device := "D1" }) ∧
    ((1, serializeReading { device := "D1" }) ∈ (broadcast [1, 2, 3] (fun c => c = 2)
        { device := "D1" }).2
      ∧ 1 ∈ (broadcast [1, 2, 3] (fun c => c = 2) { device := "D1" }).1) ∧
    ¬ 2 ∈ (broadcast [1, 2, 3] (fun c => c = 2) { device := "D1" }).1 := by
  have h1 := broadcast_fanout [1, 2, 3] (fun c => c = 2) { device := "D1" } 1 (by decide)
  have h2 := broadcast_fanout [1, 2, 3] (fun c => c = 2) { device := "D1" } 2 (by decide)
  exact ⟨h1.1, h1.2.1 (by decide), h2.2.2 (by decide)⟩

/-! ## Claim theorems: persistence gateway -/

/-- C10: the stored row carries exactly the reading's `device`, `ts`,
`received_at`, `pm2_5`, `pm2_5_norm`, `gas_raw`, `gas_norm`, `temp`,
`humidity` and the encoded `pm_ok`/`gas_ok`/`dht_ok` flags; the row is
unchanged under any value of the reading's `version`,
`wifi_connected` and `hostname` fields (they are not persisted), and a
reading with no `received_at` is stored with the current time
substituted. -/
theorem store_reading_schema (r : SensorReading) (v : String) (w : Bool)
    (hn : String) (now : Nat) :
    store_reading { r with version := v, wifi_connected := w, hostname := hn } now
      = store_reading r now ∧
    (store_reading r now).device = r.device ∧
    (store_reading r now).timestamp = r.ts ∧
    (store_reading r now).pm2_5 = r.pm2_5 ∧
    (store_reading r now).pm2_5_norm = r.pm2_5_norm ∧
    (store_reading r now).gas_raw = r.gas_raw ∧
    (store_reading r now).gas_norm = r.gas_norm ∧
    (store_reading r now).temp = r.temp ∧
    (store_reading r now).humidity = r.humidity ∧
    (store_reading r now).pm_ok = encode_ok r.pm_ok ∧
    (store_reading r now).gas_ok = encode_ok r.gas_ok ∧
    (store_reading r now).dht_ok = encode_ok r.dht_ok ∧
    (r.received_at = none → (store_reading r now).received_at = now) ∧
    (∀ t, r.received_at = some t → (store_reading r now).received_at = t) := by
  refine ⟨rfl, rfl, rfl, rfl, rfl, rfl, rfl, rfl, rfl, rfl, rfl, rfl, ?_, ?_⟩
  · intro h
    simp [store_reading, h]
  · intro t h
    simp [store_reading, h]

theorem store_reading_schema_witness :
    store_reading { device := "D1", version := "v9", wifi_connected := true, hostname := "h" } 5
      = store_reading { device := "D1" } 5 ∧
    (store_reading { device := "D1" } 5).received_at = 5 ∧
    (store_reading { device := "D1", received_at := some 3 } 5).received_at = 3 := by
  have h1 := store_reading_schema { device := "D1" } "v9" true "h" 5
  have h2 := store_reading_schema { device := "D1", received_at := some 3 } "x" false "y" 5
  exact ⟨h1.1, (h1.2.2.2.2.2.2.2.2.2.2.2.2.1) rfl, (h2.2.2.2.2.2.2.2.2.2.2.2.2.2) 3 rfl⟩

/-! ## Claim theorems: device-id extraction -/

theorem pySplit_ne_nil (sep : Char) (l : List Char) : pySplit sep l ≠ [] := by
  cases l with
  | nil => simp [pySplit]
  | cons c rest => by_cases h : c = sep <;> simp [pySplit, h]

theorem pySplit_tail_eq_nil_iff (sep : Char) (l : List Char) :
    (pySplit sep l).tail = [] ↔ ¬ sep ∈ l := by
  induction l with
  | nil => simp [pySplit]
  | cons c rest ih =>
      by_cases h : c = sep
      · simp only [pySplit, if_pos h, List.tail_cons]
        constructor
        · intro habs
          exact absurd habs (pySplit_ne_nil sep rest)
        · intro hnm
          have hmem : sep ∈ c :: rest := by
            rw [← h]
            exact List.mem_cons_self c rest
          exact absurd hmem hnm
      · simp only [pySplit, if_neg h, List.tail_cons]
        rw [ih, List.mem_cons]
        constructor
        · intro hns
          rintro (heq | hmem)
          · exact h heq.symm
          · exact hns hmem
        · intro hns hmem
          exact hns (Or.inr hmem)

/-- The last segment of a Python single-character split is the run of
characters after the last occurrence of the separator. -/
theorem pySplit_getLastD (sep : Char) (l : List Char) :
    (pySplit sep l).getLastD []
      = (l.reverse.takeWhile (fun c => c ≠ sep)).reverse := by
  induction l with
  | nil => rfl
  | cons c rest ih =>
      by_cases hc : c = sep
      · have hL : (pySplit sep (c :: rest)).getLastD []
            = (pySplit sep rest).getLastD [] := by
          simp only [pySplit, if_pos hc]
          exact List.getLastD_cons _ _ _
        rw [hL, ih, List.reverse_cons, List.takeWhile_append]
        split
        next hlen =>
          have hself : rest.reverse.takeWhile (fun x => x ≠ sep) = rest.reverse :=
            (List.takeWhile_prefix _).eq_of_length hlen
          rw [hself]
          simp [hc]
        next => rfl
      · obtain ⟨h0, t0, hr⟩ : ∃ h0 t0, pySplit sep rest = h0 :: t0 := by
          cases hps : pySplit sep rest with
          | nil => exact absurd hps (pySplit_ne_nil sep rest)
          | cons h0 t0 => exact ⟨h0, t0, rfl⟩
        have hL : pySplit sep (c :: rest) = (c :: h0) :: t0 := by
          simp [pySplit, hc, hr]
        rw [hL, List.reverse_cons, List.takeWhile_append]
        cases t0 with
        | nil =>
            have hnot : ¬ sep ∈ rest := by
              rw [← pySplit_tail_eq_nil_iff, hr]
              rfl
            have hself : rest.reverse.takeWhile (fun x => x ≠ sep) = rest.reverse := by
              rw [List.takeWhile_eq_self_iff]
              intro x hx
              simp only [decide_eq_true_eq]
              intro hxs
              exact hnot (hxs ▸ List.mem_reverse.mp hx)
            have hh0 : h0 = rest := by
              have hih := ih
              rw [hr] at hih
              rw [hself] at hih
              simpa using hih
            rw [if_pos (by rw [hself])]
            simp only [List.getLastD_cons, List.getLastD_nil]
            rw [hh0]
            simp [hc]
        | cons y ys =>
            have hmem : sep ∈ rest := by
              by_contra hnm
              have htl := (pySplit_tail_eq_nil_iff sep rest).mpr hnm
              rw [hr] at htl
              exact absurd htl (by simp)
            have hne : ¬ ((rest.reverse.takeWhile (fun x => x ≠ sep)).length
                = rest.reverse.length) := by
              intro hlen
              have hself := (List.takeWhile_prefix _).eq_of_length hlen
              have hall := List.takeWhile_eq_self_iff.mp hself
              have hxs := hall sep (List.mem_reverse.mpr hmem)
              simp at hxs
            rw [if_neg hne]
            have hL2 : (((c :: h0) :: y :: ys).getLastD []) = ((h0 :: y :: ys).getLastD []) := by
              simp [List.getLastD_cons]
            rw [hL2, ← hr, ih]

/-- C9 counterexample: with the display name absent and the transport
address `"AA(BB)"`, the derived id is `"BB"`, not the transport
address — the source substitutes the address for a missing name and
then applies the parenthesis heuristic to it, so the claimed
unconditional fallback to the address fails. -/
theorem device_id_fallback_refuted :
    extract_device_id none "AA(BB)" = "BB" ∧
    extract_device_id none "AA(BB)" ≠ "AA(BB)" := by
  constructor
  · decide
  · decide

/-- C9 (amended): the heuristic applies to the effective name — the
display name, or the transport address when the name is empty or
absent.  When the effective name contains both `(` and `)`, the id is
the substring after its last `(` with every trailing `)` stripped
(`spec_token_after_last_open`, written from the design document's
words); otherwise it is the transport address. -/
theorem device_id_extraction_amended (deviceName : Option String) (address : String) :
    extract_device_id deviceName address =
      (let name := match deviceName with
        | none => address
        | some n => if n = "" then address else n
      if name.data.contains '(' ∧ name.data.contains ')' then spec_token_after_last_open name
      else address) := by
  have key : ∀ s : String,
      String.mk (((pySplit '(' s.data).getLastD []).reverse.dropWhile
          (fun c => c = ')')).reverse = spec_token_after_last_open s := by
    intro s
    rw [pySplit_getLastD, List.reverse_reverse]
    rfl
  simp only [extract_device_id]
  split
  next h => rw [key]
  next h => rfl

end Moonstone
